import Mathlib

/-!
Verification of the `SuperDijetMela` resolution-model registry
(`MELA/interface/SuperDijetMela.h`).

The header declares the data model — a `float sqrts`, a
`TVar::VerbosityLevel verbosity`, an `std::unordered_map<int,
MELADifermionResolutionModel*> ResolutionModelMap` — together with the
inline setter `SetVerbosity` and the declarations of
`SetupResolutionModel` and `GetConvBW`.  The bodies of the latter two,
the constructor, and the external types `TVar::Production`,
`MELADifermionResolutionModel` and `MELACandidate` are not part of the
given sources, so they are modelled from the specification
(resolution-model registry: lazy exactly-once construction keyed by the
integer value of the production mode, delegation of evaluation, and the
`UnsupportedProductionMode` error).  Machine floats are modelled by `ℚ`.
-/

/-- Modelled from the spec: `TVar::VerbosityLevel`, the external diagnostic
verbosity enumeration, represented by its integer level. -/
abbrev VerbosityLevel := Int

/-- Modelled from the spec: `TVar::Production`, the external closed
enumeration of production-mode identifiers.  The enumerators themselves are
outside the given sources; we model a representative closed set containing
both supported and unsupported modes. -/
inductive Production where
  | Had_ZH
  | Had_WH
  | Lep_ZH
  | JJVBF
  | JJQCD
deriving DecidableEq, Repr

/-- Modelled from the spec: the integer value of a production-mode
identifier, i.e. the C++ conversion `(int) prod` used to key the
`unordered_map<int, ...>` declared in the header. -/
def Production.toInt : Production → Int
  | .Had_ZH => 0
  | .Had_WH => 1
  | .Lep_ZH => 2
  | .JJVBF => 3
  | .JJQCD => 4

/-- Modelled from the spec: membership in "the closed enumeration of
supported modes", the modes the system knows how to construct a resolution
model for. -/
def isSupportedProduction : Production → Bool
  | .Had_ZH => true
  | .Had_WH => true
  | _ => false

/-- Modelled from the spec: `MELACandidate`, the external read-only
kinematic object; the registry never inspects or mutates it, only forwards
it.  We retain the one input a resolution model needs, the reconstructed
observed mass. -/
structure MELACandidate where
  observedMass : ℚ
deriving DecidableEq, Repr

/-- Modelled from the spec: `MELADifermionResolutionModel`, the external
per-production-mode resolution model, constructed from
`(productionMode, referenceEnergy)`. -/
structure MELADifermionResolutionModel where
  prod : Production
  sqrts : ℚ
deriving DecidableEq, Repr

/-- Modelled from the spec: the per-mode resonance reference mass entering
the lineshape (part of the model's opaque internal parameterization; the
spec leaves the exact per-mode parameterization open, so we fix
representative positive pole masses). -/
def referenceMass : Production → ℚ
  | .Had_ZH => 91
  | .Had_WH => 80
  | .Lep_ZH => 91
  | .JJVBF => 125
  | .JJQCD => 125

/-- Modelled from the spec: the model's `evaluate(candidate) → density`
operation.  The spec specifies the convolution
`∫ BW(m; m₀, Γ)·Kernel(m_obs − m) dm` only as a contract and notes the
degenerate-kernel limit must reduce to the bare Breit–Wigner at the
candidate's observed mass; we use that closed form (with Γ = 1 and an
energy-dependent normalization) as the concrete density.  It is pure and
non-negative, as the contract requires. -/
def MELADifermionResolutionModel.evaluate
    (model : MELADifermionResolutionModel) (cand : MELACandidate) : ℚ :=
  let m0 : ℚ := referenceMass model.prod
  model.sqrts ^ 2 / ((cand.observedMass ^ 2 - m0 ^ 2) ^ 2 + m0 ^ 2)

/-- Modelled from the spec: construction of a resolution model from
`(productionMode, referenceEnergy)`. -/
def constructModel (prod : Production) (energy : ℚ) :
    MELADifermionResolutionModel :=
  { prod := prod, sqrts := energy }

/-- The association-list model of the header's
`std::unordered_map<int, MELADifermionResolutionModel*>`. -/
abbrev ResMap := List (Int × MELADifermionResolutionModel)

/-- Lookup in the model map by integer key (`unordered_map::find`). -/
def mapFind : ResMap → Int → Option MELADifermionResolutionModel
  | [], _ => none
  | (k, v) :: rest, key => if k = key then some v else mapFind rest key

/-- Number of entries stored under a given integer key. -/
def entryCount (m : ResMap) (k : Int) : Nat :=
  (m.filter (fun e => e.1 = k)).length

/-- The registry state declared in the header `SuperDijetMela.h`:
`float sqrts`, `TVar::VerbosityLevel verbosity`, and the resolution handle
map `ResolutionModelMap`. -/
structure SuperDijetMela where
  sqrts : ℚ
  verbosity : VerbosityLevel
  ResolutionModelMap : ResMap
deriving DecidableEq, Repr

/-- Modelled from the spec: the registry error taxonomy relevant to the
registry layer itself. -/
inductive RegistryError where
  | UnsupportedProductionMode
deriving DecidableEq, Repr

/-- Modelled from the spec: the constructor
`SuperDijetMela(float sqrts_, TVar::VerbosityLevel verbosity_)`; both values
are fixed at construction and resolution models are created lazily on
demand, so the map starts empty. -/
def SuperDijetMela.init (sqrts_ : ℚ) (verbosity_ : VerbosityLevel) :
    SuperDijetMela :=
  { sqrts := sqrts_, verbosity := verbosity_, ResolutionModelMap := [] }

/-- From the header (inline):
`void SetVerbosity(const TVar::VerbosityLevel verbosity_){ verbosity=verbosity_; }`. -/
def SuperDijetMela.SetVerbosity (st : SuperDijetMela)
    (verbosity_ : VerbosityLevel) : SuperDijetMela :=
  { st with verbosity := verbosity_ }

/-- Modelled from the spec: `SetupResolutionModel(TVar::Production prod)`
(body not in the given sources).  If the mode is unsupported it fails with
`UnsupportedProductionMode` and leaves the mapping unchanged; otherwise, if
no model is cached under the mode's integer key, one is constructed from
`(prod, sqrts)` and inserted, and if a model already exists the call is a
no-op.  The returned pair is (error report, post-call registry state). -/
def SuperDijetMela.SetupResolutionModel (st : SuperDijetMela)
    (prod : Production) : Option RegistryError × SuperDijetMela :=
  if isSupportedProduction prod then
    match mapFind st.ResolutionModelMap prod.toInt with
    | some _ => (none, st)
    | none =>
      (none,
        { st with
          ResolutionModelMap :=
            st.ResolutionModelMap ++
              [(prod.toInt, constructModel prod st.sqrts)] })
  else (some .UnsupportedProductionMode, st)

/-- Modelled from the spec: `GetConvBW(TVar::Production prod,
MELACandidate* cand)` (body not in the given sources).  It performs the
same `UnsupportedProductionMode` check and the same lazy construction as
`SetupResolutionModel`, then delegates to the cached model's evaluate
operation, returning its result unchanged.  The returned pair is
(density or error, post-call registry state). -/
def SuperDijetMela.GetConvBW (st : SuperDijetMela) (prod : Production)
    (cand : MELACandidate) : Except RegistryError ℚ × SuperDijetMela :=
  if isSupportedProduction prod then
    match mapFind st.ResolutionModelMap prod.toInt with
    | some model => (.ok (model.evaluate cand), st)
    | none =>
      let model := constructModel prod st.sqrts
      (.ok (model.evaluate cand),
        { st with
          ResolutionModelMap :=
            st.ResolutionModelMap ++ [(prod.toInt, model)] })
  else (.error .UnsupportedProductionMode, st)

/-! ### Helper lemmas about the model map -/

theorem mapFind_append_some (ms es : ResMap) (k : Int)
    (v : MELADifermionResolutionModel) (h : mapFind ms k = some v) :
    mapFind (ms ++ es) k = some v := by
  induction ms with
  | nil => simp [mapFind] at h
  | cons e rest ih =>
    obtain ⟨k0, v0⟩ := e
    simp only [mapFind, List.cons_append] at h ⊢
    by_cases hk : k0 = k
    · simpa [hk] using h
    · rw [if_neg hk] at h ⊢
      exact ih h

theorem mapFind_append_none (ms : ResMap) (k k0 : Int)
    (v0 : MELADifermionResolutionModel) (h : mapFind ms k = none) :
    mapFind (ms ++ [(k0, v0)]) k = if k0 = k then some v0 else none := by
  induction ms with
  | nil => simp [mapFind]
  | cons e rest ih =>
    obtain ⟨k1, v1⟩ := e
    simp only [mapFind, List.cons_append] at h ⊢
    by_cases hk : k1 = k
    · simp [hk] at h
    · rw [if_neg hk] at h ⊢
      exact ih h

theorem entryCount_cons (k0 : Int) (v0 : MELADifermionResolutionModel)
    (rest : ResMap) (k : Int) :
    entryCount ((k0, v0) :: rest) k =
      (if k0 = k then 1 else 0) + entryCount rest k := by
  by_cases hk : k0 = k
  · simp [entryCount, List.filter_cons, hk, Nat.add_comm]
  · simp [entryCount, List.filter_cons, hk]

theorem entryCount_append_single (ms : ResMap) (k0 : Int)
    (v0 : MELADifermionResolutionModel) (k : Int) :
    entryCount (ms ++ [(k0, v0)]) k =
      entryCount ms k + (if k0 = k then 1 else 0) := by
  by_cases hk : k0 = k
  · simp [entryCount, List.filter_append, List.filter_cons, hk]
  · simp [entryCount, List.filter_append, List.filter_cons, hk]

theorem entryCount_eq_zero_of_mapFind_none (ms : ResMap) (k : Int)
    (h : mapFind ms k = none) : entryCount ms k = 0 := by
  induction ms with
  | nil => simp [entryCount]
  | cons e rest ih =>
    obtain ⟨k0, v0⟩ := e
    simp only [mapFind] at h
    by_cases hk : k0 = k
    · simp [hk] at h
    · rw [if_neg hk] at h
      rw [entryCount_cons, if_neg hk, ih h]

/-- The spec-required model contract: the density returned by `evaluate`
is non-negative. -/
theorem evaluate_nonneg (model : MELADifermionResolutionModel)
    (cand : MELACandidate) : 0 ≤ model.evaluate cand := by
  unfold MELADifermionResolutionModel.evaluate
  apply div_nonneg (sq_nonneg _)
  have hm : (0:ℚ) < referenceMass model.prod := by
    cases model.prod <;> norm_num [referenceMass]
  have h1 : (0:ℚ) ≤ (cand.observedMass ^ 2 - referenceMass model.prod ^ 2) ^ 2 :=
    sq_nonneg _
  nlinarith

/-! ### Claim theorems -/

/-- Claim C1: for every supported production mode and well-formed candidate,
`GetConvBW` without a prior `SetupResolutionModel` call returns the same
density value as `GetConvBW` after `SetupResolutionModel` for that mode, and
evaluation never fails merely because setup was skipped. -/
theorem getConvBW_lazy_equals_explicit (st st' : SuperDijetMela)
    (prod : Production) (cand : MELACandidate)
    (hsetup : st.SetupResolutionModel prod = (none, st')) :
    (st.GetConvBW prod cand).1 = (st'.GetConvBW prod cand).1 ∧
      ∃ q : ℚ, (st.GetConvBW prod cand).1 = Except.ok q := by
  by_cases hs : isSupportedProduction prod = true
  · cases hfind : mapFind st.ResolutionModelMap prod.toInt with
    | some m =>
      have hst' : st' = st := by
        simp [SuperDijetMela.SetupResolutionModel, hs, hfind] at hsetup
        exact hsetup.symm
      subst hst'
      exact ⟨rfl, ⟨m.evaluate cand, by
        simp [SuperDijetMela.GetConvBW, hs, hfind]⟩⟩
    | none =>
      have hst' : st' =
          { st with
            ResolutionModelMap :=
              st.ResolutionModelMap ++
                [(prod.toInt, constructModel prod st.sqrts)] } := by
        simp [SuperDijetMela.SetupResolutionModel, hs, hfind] at hsetup
        exact hsetup.symm
      subst hst'
      have hfind' :
          mapFind (st.ResolutionModelMap ++
              [(prod.toInt, constructModel prod st.sqrts)]) prod.toInt
            = some (constructModel prod st.sqrts) := by
        rw [mapFind_append_none _ _ _ _ hfind, if_pos rfl]
      constructor
      · simp [SuperDijetMela.GetConvBW, hs, hfind, hfind']
      · exact ⟨(constructModel prod st.sqrts).evaluate cand, by
          simp [SuperDijetMela.GetConvBW, hs, hfind]⟩
  · simp [SuperDijetMela.SetupResolutionModel, hs] at hsetup

/-- Witness for C1 at a concrete registry state, mode and candidate. -/
theorem getConvBW_lazy_equals_explicit_witness :
    ((SuperDijetMela.init 13 0).GetConvBW Production.Had_ZH ⟨91⟩).1 =
      ((SuperDijetMela.mk 13 0
          [(0, constructModel Production.Had_ZH 13)]).GetConvBW
            Production.Had_ZH ⟨91⟩).1 ∧
      ∃ q : ℚ, ((SuperDijetMela.init 13 0).GetConvBW
          Production.Had_ZH ⟨91⟩).1 = Except.ok q :=
  getConvBW_lazy_equals_explicit (SuperDijetMela.init 13 0)
    (SuperDijetMela.mk 13 0 [(0, constructModel Production.Had_ZH 13)])
    Production.Had_ZH ⟨91⟩ (by decide)

/-- Claim C2: `SetupResolutionModel` is idempotent: a successful call yields a
state on which a second call is a no-op returning the very same state, exactly
one cached model exists for the mode when none was cached before, and when a
model was already cached the first call constructed nothing (state
unchanged). -/
theorem setupResolutionModel_idempotent (st st' : SuperDijetMela)
    (prod : Production)
    (hsetup : st.SetupResolutionModel prod = (none, st')) :
    st'.SetupResolutionModel prod = (none, st') ∧
      (mapFind st.ResolutionModelMap prod.toInt = none →
        entryCount st'.ResolutionModelMap prod.toInt = 1) ∧
      (∀ m, mapFind st.ResolutionModelMap prod.toInt = some m → st' = st) := by
  by_cases hs : isSupportedProduction prod = true
  · cases hfind : mapFind st.ResolutionModelMap prod.toInt with
    | some m =>
      have hst' : st' = st := by
        simp [SuperDijetMela.SetupResolutionModel, hs, hfind] at hsetup
        exact hsetup.symm
      subst hst'
      refine ⟨by simp [SuperDijetMela.SetupResolutionModel, hs, hfind],
        ?_, fun _ _ => rfl⟩
      intro hnone
      simp [hfind] at hnone
    | none =>
      have hst' : st' =
          { st with
            ResolutionModelMap :=
              st.ResolutionModelMap ++
                [(prod.toInt, constructModel prod st.sqrts)] } := by
        simp [SuperDijetMela.SetupResolutionModel, hs, hfind] at hsetup
        exact hsetup.symm
      subst hst'
      have hfind' :
          mapFind (st.ResolutionModelMap ++
              [(prod.toInt, constructModel prod st.sqrts)]) prod.toInt
            = some (constructModel prod st.sqrts) := by
        rw [mapFind_append_none _ _ _ _ hfind, if_pos rfl]
      refine ⟨by simp [SuperDijetMela.SetupResolutionModel, hs, hfind'], ?_, ?_⟩
      · intro _
        rw [show ({ st with
              ResolutionModelMap :=
                st.ResolutionModelMap ++
                  [(prod.toInt, constructModel prod st.sqrts)] } :
            SuperDijetMela).ResolutionModelMap =
            st.ResolutionModelMap ++
              [(prod.toInt, constructModel prod st.sqrts)] from rfl,
          entryCount_append_single, if_pos rfl,
          entryCount_eq_zero_of_mapFind_none _ _ hfind]
      · intro m hm
        simp [hfind] at hm
  · simp [SuperDijetMela.SetupResolutionModel, hs] at hsetup

/-- Witness for C2 at a concrete registry state and mode. -/
theorem setupResolutionModel_idempotent_witness :
    (SuperDijetMela.mk 13 0
        [(1, constructModel Production.Had_WH 13)]).SetupResolutionModel
          Production.Had_WH =
      (none, SuperDijetMela.mk 13 0
        [(1, constructModel Production.Had_WH 13)]) ∧
    (mapFind [(1, constructModel Production.Had_WH 13)] 1 = none →
      entryCount [(1, constructModel Production.Had_WH 13)] 1 = 1) ∧
    (∀ m, mapFind [(1, constructModel Production.Had_WH 13)] 1 = some m →
      SuperDijetMela.mk 13 0 [(1, constructModel Production.Had_WH 13)] =
        SuperDijetMela.mk 13 0 [(1, constructModel Production.Had_WH 13)]) :=
  setupResolutionModel_idempotent
    (SuperDijetMela.mk 13 0 [(1, constructModel Production.Had_WH 13)])
    (SuperDijetMela.mk 13 0 [(1, constructModel Production.Had_WH 13)])
    Production.Had_WH (by decide)

/-- Claim C3: for a mode outside the supported set, both
`SetupResolutionModel` and `GetConvBW` fail with `UnsupportedProductionMode`
and leave the registry state (hence the model mapping) unchanged; for a
supported mode neither operation raises this error, even on repeated
calls. -/
theorem unsupportedProductionMode_behavior (st : SuperDijetMela)
    (prod : Production) (cand : MELACandidate) :
    (isSupportedProduction prod = false →
      st.SetupResolutionModel prod =
          (some RegistryError.UnsupportedProductionMode, st) ∧
        st.GetConvBW prod cand =
          (Except.error RegistryError.UnsupportedProductionMode, st)) ∧
    (isSupportedProduction prod = true →
      (st.SetupResolutionModel prod).1 = none ∧
        ((st.SetupResolutionModel prod).2.SetupResolutionModel prod).1 =
          none ∧
        (∃ q : ℚ, (st.GetConvBW prod cand).1 = Except.ok q) ∧
        (∃ q : ℚ,
          ((st.SetupResolutionModel prod).2.GetConvBW prod cand).1 =
            Except.ok q)) := by
  constructor
  · intro hs
    constructor
    · simp [SuperDijetMela.SetupResolutionModel, hs]
    · simp [SuperDijetMela.GetConvBW, hs]
  · intro hs
    cases hfind : mapFind st.ResolutionModelMap prod.toInt with
    | some m =>
      refine ⟨by simp [SuperDijetMela.SetupResolutionModel, hs, hfind],
        by simp [SuperDijetMela.SetupResolutionModel, hs, hfind],
        ⟨m.evaluate cand, by simp [SuperDijetMela.GetConvBW, hs, hfind]⟩,
        ⟨m.evaluate cand, by
          simp [SuperDijetMela.SetupResolutionModel, hs, hfind,
            SuperDijetMela.GetConvBW]⟩⟩
    | none =>
      have hfind' :
          mapFind (st.ResolutionModelMap ++
              [(prod.toInt, constructModel prod st.sqrts)]) prod.toInt
            = some (constructModel prod st.sqrts) := by
        rw [mapFind_append_none _ _ _ _ hfind, if_pos rfl]
      refine ⟨by simp [SuperDijetMela.SetupResolutionModel, hs, hfind],
        by simp [SuperDijetMela.SetupResolutionModel, hs, hfind, hfind'],
        ⟨(constructModel prod st.sqrts).evaluate cand, by
          simp [SuperDijetMela.GetConvBW, hs, hfind]⟩,
        ⟨(constructModel prod st.sqrts).evaluate cand, by
          simp [SuperDijetMela.SetupResolutionModel, hs, hfind,
            SuperDijetMela.GetConvBW, hfind']⟩⟩

/-- Witness for C3: the unsupported branch at mode `JJQCD` and the
supported branch at mode `Had_ZH`, on a concrete registry state. -/
theorem unsupportedProductionMode_behavior_witness :
    (SuperDijetMela.init 13 0).SetupResolutionModel Production.JJQCD =
        (some RegistryError.UnsupportedProductionMode,
          SuperDijetMela.init 13 0) ∧
      ∃ q : ℚ, ((SuperDijetMela.init 13 0).GetConvBW Production.Had_ZH
          ⟨91⟩).1 = Except.ok q :=
  ⟨((unsupportedProductionMode_behavior (SuperDijetMela.init 13 0)
      Production.JJQCD ⟨91⟩).1 (by decide)).1,
    ((unsupportedProductionMode_behavior (SuperDijetMela.init 13 0)
      Production.Had_ZH ⟨91⟩).2 (by decide)).2.2.1⟩

/-- Claim C4: every density successfully returned by `GetConvBW` is
non-negative (and, being a rational in this model, finite). -/
theorem getConvBW_nonneg (st : SuperDijetMela) (prod : Production)
    (cand : MELACandidate) (q : ℚ)
    (h : (st.GetConvBW prod cand).1 = Except.ok q) : 0 ≤ q := by
  by_cases hs : isSupportedProduction prod = true
  · cases hfind : mapFind st.ResolutionModelMap prod.toInt with
    | some m =>
      simp [SuperDijetMela.GetConvBW, hs, hfind] at h
      rw [← h]
      exact evaluate_nonneg m cand
    | none =>
      simp [SuperDijetMela.GetConvBW, hs, hfind] at h
      rw [← h]
      exact evaluate_nonneg (constructModel prod st.sqrts) cand
  · simp [SuperDijetMela.GetConvBW, hs] at h

/-- Witness for C4 at a concrete registry state, mode and candidate. -/
theorem getConvBW_nonneg_witness :
    ((SuperDijetMela.init 13 0).GetConvBW Production.Had_ZH ⟨91⟩).1 =
        Except.ok (169 / 8281 : ℚ) ∧
      (0 : ℚ) ≤ 169 / 8281 :=
  ⟨by norm_num [SuperDijetMela.GetConvBW, SuperDijetMela.init, mapFind,
      isSupportedProduction, constructModel, referenceMass, Production.toInt,
      MELADifermionResolutionModel.evaluate],
    getConvBW_nonneg (SuperDijetMela.init 13 0) Production.Had_ZH ⟨91⟩
      (169 / 8281)
      (by norm_num [SuperDijetMela.GetConvBW, SuperDijetMela.init, mapFind,
        isSupportedProduction, constructModel, referenceMass,
        Production.toInt, MELADifermionResolutionModel.evaluate])⟩

/-- Claim C5: `GetConvBW` is deterministic: an immediately repeated call on
the state left by the first call returns the identical (density, state)
pair, and the registry performs no per-candidate caching — the post-call
registry state is independent of the candidate. -/
theorem getConvBW_deterministic (st : SuperDijetMela) (prod : Production)
    (cand cand' : MELACandidate) :
    (st.GetConvBW prod cand).2.GetConvBW prod cand =
        st.GetConvBW prod cand ∧
      (st.GetConvBW prod cand).2 = (st.GetConvBW prod cand').2 := by
  by_cases hs : isSupportedProduction prod = true
  · cases hfind : mapFind st.ResolutionModelMap prod.toInt with
    | some m =>
      constructor
      · simp [SuperDijetMela.GetConvBW, hs, hfind]
      · simp [SuperDijetMela.GetConvBW, hs, hfind]
    | none =>
      have hfind' :
          mapFind (st.ResolutionModelMap ++
              [(prod.toInt, constructModel prod st.sqrts)]) prod.toInt
            = some (constructModel prod st.sqrts) := by
        rw [mapFind_append_none _ _ _ _ hfind, if_pos rfl]
      constructor
      · simp [SuperDijetMela.GetConvBW, hs, hfind, hfind']
      · simp [SuperDijetMela.GetConvBW, hs, hfind]
  · constructor
    · simp [SuperDijetMela.GetConvBW, hs]
    · simp [SuperDijetMela.GetConvBW, hs]

/-- Claim C6: registry invariant preserved by construction,
`SetupResolutionModel`, `GetConvBW` and `SetVerbosity`: at most one model
entry exists per production-mode key at any time, and a model once cached
under a key is never replaced. -/
theorem registry_at_most_one_model (st : SuperDijetMela) (prod : Production)
    (cand : MELACandidate) (v : VerbosityLevel) (e : ℚ)
    (vl : VerbosityLevel) (k : Int) :
    entryCount (SuperDijetMela.init e vl).ResolutionModelMap k = 0 ∧
      (∀ m, mapFind st.ResolutionModelMap k = some m →
        mapFind (st.SetupResolutionModel prod).2.ResolutionModelMap k =
            some m ∧
          mapFind (st.GetConvBW prod cand).2.ResolutionModelMap k = some m ∧
          mapFind (st.SetVerbosity v).ResolutionModelMap k = some m) ∧
      (entryCount st.ResolutionModelMap k ≤ 1 →
        entryCount (st.SetupResolutionModel prod).2.ResolutionModelMap k ≤
            1 ∧
          entryCount (st.GetConvBW prod cand).2.ResolutionModelMap k ≤ 1 ∧
          entryCount (st.SetVerbosity v).ResolutionModelMap k ≤ 1) := by
  have hmaps :
      (st.SetupResolutionModel prod).2.ResolutionModelMap =
          st.ResolutionModelMap ∧
        (st.GetConvBW prod cand).2.ResolutionModelMap =
          st.ResolutionModelMap ∨
      mapFind st.ResolutionModelMap prod.toInt = none ∧
        (st.SetupResolutionModel prod).2.ResolutionModelMap =
          st.ResolutionModelMap ++
            [(prod.toInt, constructModel prod st.sqrts)] ∧
        (st.GetConvBW prod cand).2.ResolutionModelMap =
          st.ResolutionModelMap ++
            [(prod.toInt, constructModel prod st.sqrts)] := by
    by_cases hs : isSupportedProduction prod = true
    · cases hfind : mapFind st.ResolutionModelMap prod.toInt with
      | some m =>
        exact Or.inl ⟨by simp [SuperDijetMela.SetupResolutionModel, hs, hfind],
          by simp [SuperDijetMela.GetConvBW, hs, hfind]⟩
      | none =>
        exact Or.inr ⟨rfl,
          by simp [SuperDijetMela.SetupResolutionModel, hs, hfind],
          by simp [SuperDijetMela.GetConvBW, hs, hfind]⟩
    · exact Or.inl ⟨by simp [SuperDijetMela.SetupResolutionModel, hs],
        by simp [SuperDijetMela.GetConvBW, hs]⟩
  refine ⟨by simp [SuperDijetMela.init, entryCount], ?_, ?_⟩
  · intro m hm
    rcases hmaps with ⟨h1, h2⟩ | ⟨hnone, h1, h2⟩
    · exact ⟨by rw [h1]; exact hm, by rw [h2]; exact hm,
        by exact hm⟩
    · exact ⟨by rw [h1]; exact mapFind_append_some _ _ _ _ hm,
        by rw [h2]; exact mapFind_append_some _ _ _ _ hm,
        by exact hm⟩
  · intro hle
    rcases hmaps with ⟨h1, h2⟩ | ⟨hnone, h1, h2⟩
    · exact ⟨by rw [h1]; exact hle, by rw [h2]; exact hle, by exact hle⟩
    · have hcount :
          entryCount (st.ResolutionModelMap ++
              [(prod.toInt, constructModel prod st.sqrts)]) k ≤ 1 := by
        rw [entryCount_append_single]
        by_cases hk : prod.toInt = k
        · rw [if_pos hk, ← hk, entryCount_eq_zero_of_mapFind_none _ _ hnone]
        · rw [if_neg hk]
          simpa using hle
      exact ⟨by rw [h1]; exact hcount, by rw [h2]; exact hcount,
        by exact hle⟩

/-- Witness for C6 at a concrete registry state, mode, candidate and key. -/
theorem registry_at_most_one_model_witness :
    entryCount (SuperDijetMela.init 13 0).ResolutionModelMap 0 = 0 ∧
      (∀ m, mapFind [(0, constructModel Production.Had_ZH 13)] 0 = some m →
        mapFind ((SuperDijetMela.mk 13 0
              [(0, constructModel Production.Had_ZH 13)]).SetupResolutionModel
                Production.Had_WH).2.ResolutionModelMap 0 = some m ∧
          mapFind ((SuperDijetMela.mk 13 0
              [(0, constructModel Production.Had_ZH 13)]).GetConvBW
                Production.Had_WH ⟨91⟩).2.ResolutionModelMap 0 = some m ∧
          mapFind ((SuperDijetMela.mk 13 0
              [(0, constructModel Production.Had_ZH 13)]).SetVerbosity
                2).ResolutionModelMap 0 = some m) ∧
      (entryCount [(0, constructModel Production.Had_ZH 13)] 0 ≤ 1 →
        entryCount ((SuperDijetMela.mk 13 0
            [(0, constructModel Production.Had_ZH 13)]).SetupResolutionModel
              Production.Had_WH).2.ResolutionModelMap 0 ≤ 1 ∧
          entryCount ((SuperDijetMela.mk 13 0
            [(0, constructModel Production.Had_ZH 13)]).GetConvBW
              Production.Had_WH ⟨91⟩).2.ResolutionModelMap 0 ≤ 1 ∧
          entryCount ((SuperDijetMela.mk 13 0
            [(0, constructModel Production.Had_ZH 13)]).SetVerbosity
              2).ResolutionModelMap 0 ≤ 1) :=
  registry_at_most_one_model
    (SuperDijetMela.mk 13 0 [(0, constructModel Production.Had_ZH 13)])
    Production.Had_WH ⟨91⟩ 2 13 0 0

/-- Claim C7: the verbosity level never influences computation results:
evaluating `GetConvBW` on a state differing only in verbosity (the state
produced by `SetVerbosity`) yields the same density, the same resulting
model map and the same reference energy. -/
theorem verbosity_never_influences_result (st : SuperDijetMela)
    (v : VerbosityLevel) (prod : Production) (cand : MELACandidate) :
    ((st.SetVerbosity v).GetConvBW prod cand).1 =
        (st.GetConvBW prod cand).1 ∧
      ((st.SetVerbosity v).GetConvBW prod cand).2.ResolutionModelMap =
        (st.GetConvBW prod cand).2.ResolutionModelMap ∧
      ((st.SetVerbosity v).GetConvBW prod cand).2.sqrts =
        (st.GetConvBW prod cand).2.sqrts := by
  by_cases hs : isSupportedProduction prod = true
  · cases hfind : mapFind st.ResolutionModelMap prod.toInt with
    | some m =>
      refine ⟨?_, ?_, ?_⟩ <;>
        simp [SuperDijetMela.GetConvBW, SuperDijetMela.SetVerbosity, hs,
          hfind]
    | none =>
      refine ⟨?_, ?_, ?_⟩ <;>
        simp [SuperDijetMela.GetConvBW, SuperDijetMela.SetVerbosity, hs,
          hfind]
  · refine ⟨?_, ?_, ?_⟩ <;>
      simp [SuperDijetMela.GetConvBW, SuperDijetMela.SetVerbosity, hs]

/-- Claim C8: the reference energy `sqrts` is immutable after construction:
no public operation changes it, and construction stores the supplied
value. -/
theorem sqrts_immutable (st : SuperDijetMela) (prod : Production)
    (cand : MELACandidate) (v : VerbosityLevel) (e : ℚ)
    (vl : VerbosityLevel) :
    (SuperDijetMela.init e vl).sqrts = e ∧
      (st.SetupResolutionModel prod).2.sqrts = st.sqrts ∧
      (st.GetConvBW prod cand).2.sqrts = st.sqrts ∧
      (st.SetVerbosity v).sqrts = st.sqrts := by
  refine ⟨rfl, ?_, ?_, rfl⟩
  · by_cases hs : isSupportedProduction prod = true
    · cases hfind : mapFind st.ResolutionModelMap prod.toInt with
      | some m => simp [SuperDijetMela.SetupResolutionModel, hs, hfind]
      | none => simp [SuperDijetMela.SetupResolutionModel, hs, hfind]
    · simp [SuperDijetMela.SetupResolutionModel, hs]
  · by_cases hs : isSupportedProduction prod = true
    · cases hfind : mapFind st.ResolutionModelMap prod.toInt with
      | some m => simp [SuperDijetMela.GetConvBW, hs, hfind]
      | none => simp [SuperDijetMela.GetConvBW, hs, hfind]
    · simp [SuperDijetMela.GetConvBW, hs]

/-- Claim C9: `SetVerbosity` assigns only the verbosity field; the
reference energy and the entire model map, every cached entry included,
are unchanged. -/
theorem setVerbosity_frame (st : SuperDijetMela) (v : VerbosityLevel) :
    (st.SetVerbosity v).verbosity = v ∧
      (st.SetVerbosity v).sqrts = st.sqrts ∧
      (st.SetVerbosity v).ResolutionModelMap = st.ResolutionModelMap ∧
      ∀ k, mapFind (st.SetVerbosity v).ResolutionModelMap k =
        mapFind st.ResolutionModelMap k :=
  ⟨rfl, rfl, rfl, fun _ => rfl⟩

/-- Claim C10: the model cache is keyed by the integer value of the
production mode: lookups under modes with equal integer representations
agree, insertion in `SetupResolutionModel` happens at the mode's integer
key, and `GetConvBW` on a mode whose integer key is already cached (even
via another mode of equal integer value) reuses that cached entry without
constructing anything. -/
theorem cache_keyed_by_int (st : SuperDijetMela) (p1 p2 : Production)
    (cand : MELACandidate) (hkey : p1.toInt = p2.toInt) :
    mapFind st.ResolutionModelMap p1.toInt =
        mapFind st.ResolutionModelMap p2.toInt ∧
      (isSupportedProduction p1 = true →
        mapFind st.ResolutionModelMap p1.toInt = none →
        (st.SetupResolutionModel p1).2.ResolutionModelMap =
          st.ResolutionModelMap ++
            [(p1.toInt, constructModel p1 st.sqrts)]) ∧
      (isSupportedProduction p2 = true →
        ∀ m, mapFind st.ResolutionModelMap p1.toInt = some m →
          st.GetConvBW p2 cand = (Except.ok (m.evaluate cand), st)) := by
  refine ⟨by rw [hkey], ?_, ?_⟩
  · intro hs hnone
    simp [SuperDijetMela.SetupResolutionModel, hs, hnone]
  · intro hs m hm
    rw [hkey] at hm
    simp [SuperDijetMela.GetConvBW, hs, hm]

/-- Witness for C10 at a concrete state holding a cached model under the
shared integer key. -/
theorem cache_keyed_by_int_witness :
    (SuperDijetMela.mk 13 0
        [(0, constructModel Production.Had_ZH 13)]).GetConvBW
          Production.Had_ZH ⟨91⟩ =
      (Except.ok ((constructModel Production.Had_ZH 13).evaluate ⟨91⟩),
        SuperDijetMela.mk 13 0
          [(0, constructModel Production.Had_ZH 13)]) :=
  ((cache_keyed_by_int
      (SuperDijetMela.mk 13 0 [(0, constructModel Production.Had_ZH 13)])
      Production.Had_ZH Production.Had_ZH ⟨91⟩ rfl).2.2 (by decide)
    (constructModel Production.Had_ZH 13) (by decide))
